import Mathlib

/-!
Shallow embedding of the segregated-fit static-array allocator in
`src/sara.c` (library "librara").

Modelling conventions:
* A C pointer into the arena `&ArrayArenaPool[o]` is modelled by its byte
  offset `o : Nat`; the null pointer is `Option.none`, so pointer values are
  `Option Nat`.
* The per-class descriptor arrays (`blocks_1024`, ..., `blocks_32`) are
  statically reserved and zero-initialized in C; we model the storage of a
  list as a `List ArrayPoolBlock_S` and reads/writes through total functions
  `getBlk`/`setBlk` whose out-of-range default `{ ptr := none, is_free :=
  false }` coincides with zero-initialized C storage.  Writes beyond the
  currently stored prefix extend it, which matches writing into the
  zero-initialized static storage.
* `size_t` arithmetic on `space_available` is modelled modulo `2 ^ 64`
  (`add64` / `sub64`).
* Release-build semantics: `assert` statements are no-ops, and
  `Helper_FindBlock` returns at the first hit.
* The `arena_initialized` flag of `struct ArrayArena_S` is omitted: it is
  set once by `StaticArrayPoolInit` and afterwards only read by asserts.
* In `StaticArrayAlloc`, when the selected class is the smallest one
  (`sz = 5`) and it has no free block, the C code reads
  `ArrayArena.lists[sz + 1]`, i.e. `lists[6]`, one past the end of the
  six-entry array.  That read is reachable with a single ordinary call
  (e.g. a 16-byte request on a fresh default arena) and is an
  out-of-bounds access — undefined behavior in the program.  The model
  collapses it into a read of an empty default list (`len = 0`, so the
  loop body never runs) and the matching out-of-range `List.set` into a
  no-op; evaluations that traverse this branch therefore describe the
  model, not the undefined program.
* The arena's byte contents (and hence `memcpy` inside
  `StaticArrayRealloc`) are not modelled; only descriptor state,
  list lengths and `space_available` are.
-/

/-- Descriptor of one block: `struct ArrayPoolBlock_S` from sara.c
(`void * ptr; bool is_free;`). -/
structure ArrayPoolBlock_S where
  ptr : Option Nat
  is_free : Bool
deriving DecidableEq, Repr

/-- Zero-initialized descriptor storage: a NULL pointer and a cleared flag. -/
def blkDefault : ArrayPoolBlock_S := { ptr := none, is_free := false }

/-- Read descriptor `i` of a list's storage (total, with zero-initialized
default beyond the stored prefix). -/
def getBlk (bs : List ArrayPoolBlock_S) (i : Nat) : ArrayPoolBlock_S :=
  bs.getD i blkDefault

/-- Write descriptor `i` of a list's storage, extending the stored prefix
with zero-initialized entries if needed. -/
def setBlk : List ArrayPoolBlock_S → Nat → ArrayPoolBlock_S → List ArrayPoolBlock_S
  | [], 0, b => [b]
  | [], n + 1, b => blkDefault :: setBlk [] n b
  | _ :: t, 0, b => b :: t
  | h :: t, n + 1, b => h :: setBlk t n b

/-- One free list: `struct ArrayPoolBlockList_S` from sara.c
(`struct ArrayPoolBlock_S * blocks; uint16_t block_size; size_t len;`). -/
structure ArrayPoolBlockList_S where
  blocks : List ArrayPoolBlock_S
  block_size : Nat
  len : Nat
deriving DecidableEq, Repr

/-- Default list value used for the (out-of-range) read of `lists[6]`. -/
def listDefault : ArrayPoolBlockList_S := { blocks := [], block_size := 0, len := 0 }

/-- The allocator state: `struct ArrayArena_S` from sara.c (minus the
`arena_initialized` flag, see the module comment). -/
structure ArrayArena_S where
  lists : List ArrayPoolBlockList_S
  space_available : Nat
deriving DecidableEq, Repr

/-- `NUM_OF_BLOCK_SIZES` from the `enum BlockSize`. -/
def NUM_OF_BLOCK_SIZES : Nat := 6

/-- The table `BlockSize_E_to_Int[] = { 1024, 512, 256, 128, 64, 32 }`. -/
def BlockSize_E_to_Int (i : Nat) : Nat :=
  [1024, 512, 256, 128, 64, 32].getD i 0

/-- Read `ArrayArena.lists[k]` (the out-of-range read `lists[6]` yields the
default empty list, see the module comment). -/
def getList (a : ArrayArena_S) (k : Nat) : ArrayPoolBlockList_S :=
  a.lists.getD k listDefault

/-- Modulus of `size_t` arithmetic. -/
def W64 : Nat := 2 ^ 64

/-- `size_t` subtraction `s - x` (wrapping). -/
def sub64 (s x : Nat) : Nat := (s + (W64 - x % W64)) % W64

/-- `size_t` addition `s + x` (wrapping). -/
def add64 (s x : Nat) : Nat := (s + x) % W64

/-- Descriptors created by `StaticArrayPoolInit`'s inner loop for one class:
`n` free blocks of size `bsz` starting at `off`, at consecutive addresses. -/
def mkBlocks : Nat → Nat → Nat → List ArrayPoolBlock_S
  | _, _, 0 => []
  | off, bsz, n + 1 => { ptr := some off, is_free := true } :: mkBlocks (off + bsz) bsz n

/-- The `(block_size, len)` pairs of the six lists after the static
initializer: `len = BLOCKS_<size>_LIST_INIT_LEN - 1` with the default
(non-`USE_EXTERNAL_INIT_LENS`) `INIT_LEN` macros of sara.c. -/
def initLens (AS : Nat) : List (Nat × Nat) :=
  [(1024, AS / 1024), (512, (AS % 1024) / 512), (256, (AS % 512) / 256),
   (128, (AS % 256) / 128), (64, (AS % 128) / 64), (32, (AS % 64) / 32)]

/-- The outer loop of `StaticArrayPoolInit`: lay the classes out one after
the other, threading `accumulating_offset`. -/
def initListsAux : Nat → List (Nat × Nat) → List ArrayPoolBlockList_S
  | _, [] => []
  | off, (bsz, n) :: rest =>
    { blocks := mkBlocks off bsz n, block_size := bsz, len := n } ::
      initListsAux (off + bsz * n) rest

/-- The allocator state right after the static initializer of `ArrayArena`
followed by `StaticArrayPoolInit`, for arena size `AS`
(`VEC_ARRAY_ARENA_SIZE`).  `space_available = AS - AS % 32` as in the
static initializer. -/
def initArena (AS : Nat) : ArrayArena_S :=
  { lists := initListsAux 0 (initLens AS),
    space_available := AS - AS % 32 }

/-- The class-selection loop of `StaticArrayAlloc`: starting at index `sz`
with `n` indices left, skip classes with `req < block_size / 2`
(`continue`), and return the first index where that does not hold (the loop
body ends in `break`). -/
def selectClassAux (req : Nat) (a : ArrayArena_S) : Nat → Nat → Option Nat
  | _, 0 => none
  | sz, n + 1 =>
    if req < (getList a sz).block_size / 2 then selectClassAux req a (sz + 1) n
    else some sz

/-- The class index `StaticArrayAlloc` settles on for a request, or `none`
when every class is skipped. -/
def selectClass (req : Nat) (a : ArrayArena_S) : Option Nat :=
  selectClassAux req a 0 NUM_OF_BLOCK_SIZES

/-- Accumulated locals of `StaticArrayAlloc`'s in-class scan loop:
`found_block`, `block_ptr`, `space_allocated`, and the (mutated) descriptor
storage. -/
structure ScanResult where
  found : Bool
  bp : Option Nat
  sa : Nat
  bs : List ArrayPoolBlock_S
deriving DecidableEq, Repr

/-- The in-class scan loop of `StaticArrayAlloc` (`for i in [0, len)`):
every free descriptor encountered sets `found_block`, records
`space_allocated = block_size`, overwrites `block_ptr` with its address and
is marked allocated; there is no early exit.  `i` is the next index, `n`
the number of iterations left. -/
def allocScan (bsz : Nat) : List ArrayPoolBlock_S → Nat → Nat → Bool → Option Nat → Nat → ScanResult
  | bs, _, 0, found, bp, sa => { found := found, bp := bp, sa := sa, bs := bs }
  | bs, i, n + 1, found, bp, sa =>
    let b := getBlk bs i
    if b.is_free then
      allocScan bsz (setBlk bs i { b with is_free := false }) (i + 1) n true b.ptr bsz
    else
      allocScan bsz bs (i + 1) n found bp sa

/-- Accumulated locals of `StaticArrayAlloc`'s splitting loop: the larger
list's `len`, the selected list's storage and `len`, `found_block`,
`block_ptr`, `space_allocated`. -/
structure SplitResult where
  llen : Nat
  sbs : List ArrayPoolBlock_S
  slen : Nat
  found : Bool
  bp : Option Nat
  sa : Nat
deriving DecidableEq, Repr

/-- The splitting loop of `StaticArrayAlloc`
(`for i = larger_len - 1 downto 0` over the consulted list's storage `lbs`,
whose descriptor data is only read, never written): every free descriptor
encountered decrements the consulted list's `len`, appends to the selected
list a descriptor `{ ptr, allocated }` and a descriptor
`{ ptr + lbsz, free }` (note: offset by the *consulted* list's block size
`lbsz`, exactly as in line 223 of sara.c), bumps the selected `len` by 2
and records the lower descriptor's address in `block_ptr`; there is no
early exit.  The argument `n` is the number of indices left, so the index
processed next is `n - 1`. -/
def splitLoop (lbs : List ArrayPoolBlock_S) (lbsz sbsz : Nat) :
    Nat → Nat → List ArrayPoolBlock_S → Nat → Bool → Option Nat → Nat → SplitResult
  | 0, llen, sbs, slen, found, bp, sa =>
    { llen := llen, sbs := sbs, slen := slen, found := found, bp := bp, sa := sa }
  | n + 1, llen, sbs, slen, found, bp, sa =>
    let b := getBlk lbs n
    if b.is_free then
      let sbs1 := setBlk sbs slen { ptr := b.ptr, is_free := false }
      let sbs2 := setBlk sbs1 (slen + 1) { ptr := Option.map (· + lbsz) b.ptr, is_free := true }
      splitLoop lbs lbsz sbsz n (llen - 1) sbs2 (slen + 2) true
        (getBlk sbs2 (slen + 2 - 2)).ptr sbsz
    else
      splitLoop lbs lbsz sbsz n llen sbs slen found bp sa

/-- `StaticArrayAlloc` from sara.c (lines 156-239), release semantics.
Returns the value of `block_ptr` and the post-state. -/
def StaticArrayAlloc (req : Nat) (a : ArrayArena_S) : Option Nat × ArrayArena_S :=
  if req > a.space_available then (none, a)
  else
    match selectClass req a with
    | none => (none, { a with space_available := sub64 a.space_available 0 })
    | some sz =>
      let list := getList a sz
      let scan := allocScan list.block_size list.blocks 0 list.len false none 0
      if scan.found then
        (scan.bp, { a with
          lists := a.lists.set sz { list with blocks := scan.bs },
          space_available := sub64 a.space_available scan.sa })
      else if sz ≠ 0 then
        let larger := getList a (sz + 1)
        let sr := splitLoop larger.blocks larger.block_size list.block_size
          larger.len larger.len scan.bs list.len scan.found scan.bp scan.sa
        (sr.bp, { a with
          lists := (a.lists.set (sz + 1) { larger with len := sr.llen }).set sz
            { list with blocks := sr.sbs, len := sr.slen },
          space_available := sub64 a.space_available sr.sa })
      else
        (scan.bp, { a with space_available := sub64 a.space_available scan.sa })

/-- The inner loop of `Helper_FindBlock` over one list: first index
`i < len` whose descriptor address equals the query. -/
def findInList (bs : List ArrayPoolBlock_S) (q : Nat) : Nat → Nat → Option Nat
  | _, 0 => none
  | i, n + 1 =>
    if (getBlk bs i).ptr = some q then some i else findInList bs q (i + 1) n

/-- The outer loop of `Helper_FindBlock` over the classes. -/
def findAcross (a : ArrayArena_S) (q : Nat) : Nat → Nat → Option (Nat × Nat)
  | _, 0 => none
  | sz, n + 1 =>
    match findInList (getList a sz).blocks q 0 (getList a sz).len with
    | some i => some (sz, i)
    | none => findAcross a q (sz + 1) n

/-- `Helper_FindBlock` from sara.c (release semantics: return the first
hit).  `none` both for a NULL query and for no hit. -/
def Helper_FindBlock (p : Option Nat) (a : ArrayArena_S) : Option (Nat × Nat) :=
  match p with
  | none => none
  | some q => findAcross a q 0 NUM_OF_BLOCK_SIZES

/-- `StaticArrayFree` from sara.c (lines 290-300): look the address up; if
not found return silently; otherwise set `is_free` (unconditionally) and
add the class size to `space_available` (unconditionally). -/
def StaticArrayFree (p : Option Nat) (a : ArrayArena_S) : ArrayArena_S :=
  match Helper_FindBlock p a with
  | none => a
  | some (sz, i) =>
    let list := getList a sz
    { a with
      lists := a.lists.set sz
        { list with blocks := setBlk list.blocks i { getBlk list.blocks i with is_free := true } },
      space_available := add64 a.space_available (BlockSize_E_to_Int sz) }

/-- `StaticArrayIsAlloc` from sara.c. -/
def StaticArrayIsAlloc (p : Option Nat) (a : ArrayArena_S) : Bool :=
  match Helper_FindBlock p a with
  | none => false
  | some (sz, i) => !(getBlk (getList a sz).blocks i).is_free

/-- `StaticArrayRealloc` from sara.c (lines 241-283).  The `memcpy` of the
block contents is not modelled (the arena bytes are outside the model). -/
def StaticArrayRealloc (p : Option Nat) (req : Nat) (a : ArrayArena_S) :
    Option Nat × ArrayArena_S :=
  match Helper_FindBlock p a with
  | none => (none, a)
  | some (sz, i) =>
    if (getBlk (getList a sz).blocks i).is_free then (none, a)
    else if (getList a sz).block_size / 2 < req ∧ req ≤ (getList a sz).block_size then (p, a)
    else if req = 0 then (none, StaticArrayFree p a)
    else
      match StaticArrayAlloc req a with
      | (some t, a1) => (some t, StaticArrayFree p a1)
      | (none, a1) => (p, a1)

/-- Modelled from the spec's words for the Alloc selection rule ("the
smallest class whose size is ≥ req_bytes"), over the default classes
{1024, 512, 256, 128, 64, 32}; `none` when the request exceeds the largest
class.  This is the claimed selection, to be compared against
`selectClass`, which is translated from the code. -/
def smallestFitClass (req : Nat) : Option Nat :=
  if req ≤ 32 then some 5
  else if req ≤ 64 then some 4
  else if req ≤ 128 then some 3
  else if req ≤ 256 then some 2
  else if req ≤ 512 then some 1
  else if req ≤ 1024 then some 0
  else none

/-- Count of allocated (`is_free = false`) descriptors among the first `n`
live entries of a list's storage, starting at index `i`. -/
def countAllocated (bs : List ArrayPoolBlock_S) : Nat → Nat → Nat
  | _, 0 => 0
  | i, n + 1 =>
    (if (getBlk bs i).is_free then 0 else 1) + countAllocated bs (i + 1) n

/-- Sum over all classes of class size times the number of allocated blocks
among that class's live descriptors (the quantity in the spec's space
accounting invariant). -/
def allocatedBytes (a : ArrayArena_S) : Nat :=
  (List.range NUM_OF_BLOCK_SIZES).foldl
    (fun acc k =>
      acc + (getList a k).block_size * countAllocated (getList a k).blocks 0 (getList a k).len) 0

/-! ### Characterization of the selection rule -/

/-- C4 (amended): the selection loop skips a class exactly while
`req < block_size / 2`, so over the default class sizes it selects the
first class whose half-size is at most the request: class 1024 for
`req ≥ 512`, class 512 for `256 ≤ req < 512`, class 256 for
`128 ≤ req < 256`, class 128 for `64 ≤ req < 128`, class 64 for
`32 ≤ req < 64`, class 32 for `16 ≤ req < 32`, and no class at all (the
request can never be served) for `req < 16`.  Consequently a successful
allocation of `n` bytes comes from the class of size `c` with
`c / 2 ≤ n < c`, or from the largest class when `n ≥ 512` — not from the
smallest class with `c ≥ n`. -/
theorem c4_selection_amended (a : ArrayArena_S) (req : Nat)
    (h0 : (getList a 0).block_size = 1024) (h1 : (getList a 1).block_size = 512)
    (h2 : (getList a 2).block_size = 256) (h3 : (getList a 3).block_size = 128)
    (h4 : (getList a 4).block_size = 64) (h5 : (getList a 5).block_size = 32) :
    selectClass req a =
      if 512 ≤ req then some 0
      else if 256 ≤ req then some 1
      else if 128 ≤ req then some 2
      else if 64 ≤ req then some 3
      else if 32 ≤ req then some 4
      else if 16 ≤ req then some 5
      else none := by
  show selectClassAux req a 0 NUM_OF_BLOCK_SIZES = _
  simp only [NUM_OF_BLOCK_SIZES]
  rw [selectClassAux, h0, selectClassAux, h1, selectClassAux, h2, selectClassAux, h3,
    selectClassAux, h4, selectClassAux, h5]
  split_ifs <;> first | rfl | omega

/-- C4 (witness for the amended theorem): on the freshly initialized
2048-byte arena, whose lists carry the default block sizes, a request of
100 bytes selects class index 3 (size 128). -/
theorem c4_selection_amended_witness :
    (getList (initArena 2048) 0).block_size = 1024 ∧
    (getList (initArena 2048) 1).block_size = 512 ∧
    (getList (initArena 2048) 2).block_size = 256 ∧
    (getList (initArena 2048) 3).block_size = 128 ∧
    (getList (initArena 2048) 4).block_size = 64 ∧
    (getList (initArena 2048) 5).block_size = 32 ∧
    selectClass 100 (initArena 2048) = some 3 :=
  ⟨by decide, by decide, by decide, by decide, by decide, by decide, by
    have h := c4_selection_amended (initArena 2048) 100 (by decide) (by decide)
      (by decide) (by decide) (by decide) (by decide)
    simpa using h⟩

/-- C4 (counterexample to the claim as stated): a request of exactly 512
bytes selects class index 0 (size 1024), although the smallest class whose
size is at least 512 is class index 1 (size 512); and a request of 15
bytes selects no class at all (the final `continue` skips even the
smallest class), although the smallest sufficient class is index 5
(size 32). -/
theorem c4_selection_cex :
    selectClass 512 (initArena 2048) = some 0 ∧
    smallestFitClass 512 = some 1 ∧
    (selectClass 512 (initArena 2048) == smallestFitClass 512) = false ∧
    selectClass 15 (initArena 2048) = none ∧
    smallestFitClass 15 = some 5 := by
  decide

/-! ### Claim theorems -/

/-- C1: the claim states that on a direct hit Alloc returns the first free
block of the selected class (scanning from index 0) and marks exactly that
one block allocated.  The code's scan loop has no early exit: on the fresh
2048-byte arena, whose class-1024 list holds free blocks at addresses 0 and
1024, `Alloc(1000)` selects class index 0, returns the address of the
*last* free block (1024, not 0), and marks *both* descriptors allocated,
so the second descriptor's `is_free` flag also changes. -/
theorem c1_alloc_marks_all_returns_last :
    selectClass 1000 (initArena 2048) = some 0 ∧
    getBlk (getList (initArena 2048) 0).blocks 0 = { ptr := some 0, is_free := true } ∧
    getBlk (getList (initArena 2048) 0).blocks 1 = { ptr := some 1024, is_free := true } ∧
    (StaticArrayAlloc 1000 (initArena 2048)).1 = some 1024 ∧
    (getBlk (getList (StaticArrayAlloc 1000 (initArena 2048)).2 0).blocks 0).is_free = false ∧
    (getBlk (getList (StaticArrayAlloc 1000 (initArena 2048)).2 0).blocks 1).is_free = false := by
  decide

/-- C2: the claim states that `space_available` plus the total bytes of
allocated blocks always equals `ARENA_SIZE - ARENA_SIZE % 32`.  After the
single operation `Alloc(1000)` on the fresh 2048-byte arena the code has
marked both 1024-byte blocks allocated while decrementing
`space_available` only once, so the sum is `1024 + 2048 = 3072 ≠ 2048`. -/
theorem c2_space_accounting_violated :
    (initArena 2048).space_available = 2048 ∧
    2048 - 2048 % 32 = 2048 ∧
    (StaticArrayAlloc 1000 (initArena 2048)).2.space_available = 1024 ∧
    allocatedBytes (StaticArrayAlloc 1000 (initArena 2048)).2 = 2048 ∧
    ((StaticArrayAlloc 1000 (initArena 2048)).2.space_available +
        allocatedBytes (StaticArrayAlloc 1000 (initArena 2048)).2 ==
      2048 - 2048 % 32) = false := by
  decide

/-- C3: the claim states that no two live descriptors ever overlap.  With
`ARENA_SIZE = 1280` the fresh arena has one free 1024-byte block at 0 and
one free 256-byte block at 1024.  `Alloc(300)` selects class index 1
(size 512), finds it empty and "splits" a block of the list at index 2 —
which is the *smaller* 256-byte class — placing the second descriptor at
offset `+ 256`: afterwards the class-512 list has `len = 2` with live
512-byte descriptors at addresses 1024 and 1280, and `1280 < 1024 + 512`,
i.e. the two live ranges `[1024, 1536)` and `[1280, 1792)` overlap. -/
theorem c3_overlap_after_split :
    (getList (StaticArrayAlloc 300 (initArena 1280)).2 1).len = 2 ∧
    (getList (StaticArrayAlloc 300 (initArena 1280)).2 1).block_size = 512 ∧
    (getBlk (getList (StaticArrayAlloc 300 (initArena 1280)).2 1).blocks 0).ptr = some 1024 ∧
    (getBlk (getList (StaticArrayAlloc 300 (initArena 1280)).2 1).blocks 1).ptr = some 1280 ∧
    1280 < 1024 + 512 := by
  decide

/-- C5: the claim states that splitting recurses upward through as many
larger classes as needed, and in particular that `Alloc(32)` succeeds in a
state whose only free block is a single 1024-byte block.  With
`ARENA_SIZE = 1024` the fresh arena is exactly such a state (one free
1024-byte descriptor, every other list empty), yet `Alloc(32)` returns the
failure sentinel: the code consults only the single list at `sz + 1` and
never recurses. -/
theorem c5_no_multilevel_split :
    (getList (initArena 1024) 0).len = 1 ∧
    getBlk (getList (initArena 1024) 0).blocks 0 = { ptr := some 0, is_free := true } ∧
    (getList (initArena 1024) 1).len = 0 ∧
    (getList (initArena 1024) 2).len = 0 ∧
    (getList (initArena 1024) 3).len = 0 ∧
    (getList (initArena 1024) 4).len = 0 ∧
    (getList (initArena 1024) 5).len = 0 ∧
    (StaticArrayAlloc 32 (initArena 1024)).1 = none := by
  decide

/-- C6: the claim states that Free on an already-free descriptor leaves the
entire state unchanged.  On the fresh 2048-byte arena the descriptor at
address 0 exists and is free, yet `Free(0)` increments `space_available`
by the class size: 2048 becomes 3072 (more than the arena holds). -/
theorem c6_free_on_free_block_changes_state :
    Helper_FindBlock (some 0) (initArena 2048) = some (0, 0) ∧
    (getBlk (getList (initArena 2048) 0).blocks 0).is_free = true ∧
    (initArena 2048).space_available = 2048 ∧
    (StaticArrayFree (some 0) (initArena 2048)).space_available = 3072 := by
  decide

/-- C7: the claim states that any request larger than the largest class
size (1024) is answered with a surfaced TOO_LARGE failure and no
modification of the arena.  In release builds the code has no such check
(only an `assert`, compiled out): on the fresh 2048-byte arena
`Alloc(1025)` returns the address 1024 of a 1024-byte block — smaller than
the request — and decrements `space_available` to 1024. -/
theorem c7_too_large_returns_block :
    BlockSize_E_to_Int 0 = 1024 ∧
    (initArena 2048).space_available = 2048 ∧
    (StaticArrayAlloc 1025 (initArena 2048)).1 = some 1024 ∧
    (StaticArrayAlloc 1025 (initArena 2048)).2.space_available = 1024 := by
  decide

/-- C8: for every state, if the descriptor of address `p` is found at
`(sz, i)`, is currently allocated, and the request satisfies
`block_size / 2 < req ≤ block_size` for that class, then
`Realloc(p, req)` returns `p` and the state is completely unchanged. -/
theorem c8_realloc_best_fit_noop (a : ArrayArena_S) (p sz i req : Nat)
    (hfind : Helper_FindBlock (some p) a = some (sz, i))
    (halloc : (getBlk (getList a sz).blocks i).is_free = false)
    (hlo : (getList a sz).block_size / 2 < req)
    (hhi : req ≤ (getList a sz).block_size) :
    StaticArrayRealloc (some p) req a = (some p, a) := by
  unfold StaticArrayRealloc
  simp only [hfind]
  rw [if_neg (by simp [halloc]), if_pos ⟨hlo, hhi⟩]

/-- C8 (witness): after `Alloc(1000)` on the fresh 2048-byte arena the
block at address 1024 is allocated in class 1024;
`Realloc(1024, 600)` (with `512 < 600 ≤ 1024`) returns the same address
and leaves the state unchanged. -/
theorem c8_realloc_best_fit_noop_witness :
    Helper_FindBlock (some 1024) (StaticArrayAlloc 1000 (initArena 2048)).2 = some (0, 1) ∧
    (getBlk (getList (StaticArrayAlloc 1000 (initArena 2048)).2 0).blocks 1).is_free = false ∧
    (getList (StaticArrayAlloc 1000 (initArena 2048)).2 0).block_size / 2 < 600 ∧
    600 ≤ (getList (StaticArrayAlloc 1000 (initArena 2048)).2 0).block_size ∧
    StaticArrayRealloc (some 1024) 600 (StaticArrayAlloc 1000 (initArena 2048)).2 =
      (some 1024, (StaticArrayAlloc 1000 (initArena 2048)).2) :=
  ⟨by decide, by decide, by decide, by decide,
    c8_realloc_best_fit_noop _ 1024 0 1 600 (by decide) (by decide) (by decide) (by decide)⟩

/-- C9: the claim states that when the internal Alloc inside
`Realloc(p, req)` fails, the old block at `p` stays allocated with its
contents intact and Realloc returns the original address.  The program
cannot guarantee this: in the state after `Alloc(1000)` on the fresh
2048-byte arena, the block at address 1024 is allocated in class 1024
(found at class index 0, descriptor index 1), and `Realloc(1024, 20)` —
the request does not best-fit class 1024 since `20 ≤ 1024 / 2`, and is
nonzero — calls the internal `Alloc(20)`.  That call selects the smallest
class (index 5), whose list is empty, and the code then reads
`ArrayArena.lists[5 + 1]`, one past the end of the six-entry `lists`
array (sara.c line 215): an out-of-bounds read, undefined behavior,
executed before any failure is reported, so the preservation of the old
block is not assured by the program.  The final conjunct records that the
model (which collapses the out-of-bounds read into an empty list) reports
the internal allocation failure with the sentinel. -/
theorem c9_realloc_internal_alloc_oob :
    Helper_FindBlock (some 1024) (StaticArrayAlloc 1000 (initArena 2048)).2 = some (0, 1) ∧
    (getBlk (getList (StaticArrayAlloc 1000 (initArena 2048)).2 0).blocks 1).is_free = false ∧
    20 ≤ (getList (StaticArrayAlloc 1000 (initArena 2048)).2 0).block_size / 2 ∧
    selectClass 20 (StaticArrayAlloc 1000 (initArena 2048)).2 = some 5 ∧
    (getList (StaticArrayAlloc 1000 (initArena 2048)).2 5).len = 0 ∧
    (StaticArrayAlloc 1000 (initArena 2048)).2.lists.length = 6 ∧
    (StaticArrayAlloc 20 (StaticArrayAlloc 1000 (initArena 2048)).2).1 = none := by
  decide

/-- C10: the claim states that whenever Alloc returns the failure sentinel
it has left every descriptor address and `is_free` flag, every list
length, and `space_available` unchanged.  The program gives no such
guarantee: on the fresh 2048-byte arena a 16-byte request passes the
space check (`space_available = 2048`), selects the smallest class
(index 5), finds its list empty (`len = 0`), and — because the selected
class is not index 0 — the code then reads `ArrayArena.lists[5 + 1]`,
one past the end of the six-entry `lists` array (sara.c line 215): an
out-of-bounds read, undefined behavior, on this failure path.  The final
conjunct records that the model (which collapses the out-of-bounds read
into an empty list) returns the sentinel on this path. -/
theorem c10_failure_path_reads_past_lists :
    (initArena 2048).space_available = 2048 ∧
    selectClass 16 (initArena 2048) = some 5 ∧
    (getList (initArena 2048) 5).len = 0 ∧
    (initArena 2048).lists.length = 6 ∧
    (StaticArrayAlloc 16 (initArena 2048)).1 = none := by
  decide
